import Mathlib

/-!
Shallow embedding of the faithbridge Paratext 10 Studio extension
(src/main.ts, src/faithbridgeOptions.ts, src/utils.ts) and proofs about it.

TypeScript values are embedded as follows: strings as `String`, JS numbers
appearing as chapter/verse numbers or scroll-group ids as `Int`, possibly
`undefined` values as `Option`, JS `Map` objects as association lists with
unique keys (`mapGet`/`mapSet`/`mapDelete`/`mapHas` mirror `get`/`set`/
`delete`/`has`), and JS truthiness tests are made explicit (`truthyStr`,
`truthyRefChange`): in particular the numeric enum member `RefChange.DoNotWatch`
has value 0 and is falsy. Host (papi) services are passed in explicitly:
user data storage is a string map threaded through the state, the scroll-group
resolution service is a function argument, and localized strings are arguments.
-/

/-- Serialized scripture reference (from the scripture library): a book id and
chapter/verse numbers. -/
structure SerializedVerseRef where
  book : String
  chapterNum : Int
  verseNum : Int
deriving DecidableEq, Repr

/-- Enum `RefChange` from faithbridgeOptions.ts. -/
inductive RefChange where
  | DoNotWatch
  | WatchBookChange
  | WatchChapterChange
  | WatchVerseChange
deriving DecidableEq, Repr

/-- Numeric value of the TypeScript enum member (DoNotWatch = 0, ...). -/
def RefChange.toNum : RefChange → Nat
  | .DoNotWatch => 0
  | .WatchBookChange => 1
  | .WatchChapterChange => 2
  | .WatchVerseChange => 3

/-- JS truthiness of a possibly-undefined string: `undefined` and the empty
string are falsy. -/
def truthyStr : Option String → Bool
  | none => false
  | some s => s != ""

/-- JS truthiness of a possibly-undefined `RefChange` value: `undefined` and
the enum member of numeric value 0 (`DoNotWatch`) are falsy. -/
def truthyRefChange : Option RefChange → Bool
  | none => false
  | some r => r.toNum != 0

/-- Interface `FaithbridgeOptions` from faithbridgeOptions.ts. -/
structure FaithbridgeOptions where
  getUrl : SerializedVerseRef → List String → String
  websiteName : String
  watchRefChange : RefChange

/-- `DEFAULT_FAITHBRIDGE_OPTIONS` from faithbridgeOptions.ts. -/
def DEFAULT_FAITHBRIDGE_OPTIONS : FaithbridgeOptions :=
  { getUrl := fun _ _ => ""
    websiteName := ""
    watchRefChange := RefChange.DoNotWatch }

/-- `getWebsiteOptions` from faithbridgeOptions.ts: the static map of website
commands, a single entry for the Faithbridge site. -/
def getWebsiteOptions : List (String × FaithbridgeOptions) :=
  [("faithbridge.openFaithbridge",
    { getUrl := fun _scrRef _lang => "https://faithbridge.multilingualai.com/bible-well"
      websiteName := "Faithbridge"
      watchRefChange := RefChange.WatchVerseChange })]

/-- `ScrollGroupScrRef` from @papi/core: either a scroll group id (a number)
or a serialized scripture reference (an object). -/
inductive ScrollGroupScrRef where
  | scrollGroupId (n : Int)
  | scrRef (r : SerializedVerseRef)
deriving DecidableEq, Repr

/-- `ScrollGroupInfo` from main.ts. -/
structure ScrollGroupInfo where
  scrollGroupScrRef : Option ScrollGroupScrRef
  scrRef : SerializedVerseRef
deriving DecidableEq, Repr

/-- JS `Map.get`: the value of the first (unique) entry with the given key. -/
def mapGet {α : Type} (m : List (String × α)) (k : String) : Option α :=
  (m.find? (fun p => p.1 == k)).map (fun p => p.2)

/-- JS `Map.has`. -/
def mapHas {α : Type} (m : List (String × α)) (k : String) : Bool :=
  (m.find? (fun p => p.1 == k)).isSome

/-- JS `Map.set`: replaces the value in place when the key is present,
otherwise appends a new entry. -/
def mapSet {α : Type} (m : List (String × α)) (k : String) (v : α) :
    List (String × α) :=
  if mapHas m k then m.map (fun p => if p.1 == k then (k, v) else p)
  else m ++ [(k, v)]

/-- JS `Map.delete` (also used to model `papi.storage.deleteUserData`). -/
def mapDelete {α : Type} (m : List (String × α)) (k : String) :
    List (String × α) :=
  m.filter (fun p => p.1 != k)

/-- Constant `FAITHBRIDGE_WEBVIEW_TYPE` from main.ts. -/
def FAITHBRIDGE_WEBVIEW_TYPE : String := "faithbridge.webView"

/-- Constant `USER_DATA_KEY` from main.ts. -/
def USER_DATA_KEY : String := "webViewTypeById_"

/-- Constant `SCR_REF_TO_TRIGGER_UPDATE` from main.ts. -/
def SCR_REF_TO_TRIGGER_UPDATE : SerializedVerseRef :=
  { book := "", chapterNum := -1, verseNum := -1 }

/-- Modelled dependency (platform-bible-utils `formatReplacementString`):
replaces the `resourceName` placeholder in the format string. -/
def formatReplacementString (format : String) (resourceName : String) : String :=
  format.replace "\x7bresourceName\x7d" resourceName

/-- `getWebViewTitle` from utils.ts. -/
def getWebViewTitle (titleStringFormat : String) (resourceName : String) : String :=
  formatReplacementString titleStringFormat resourceName

/-- Modelled dependency (@sillsdev/scripture canon): book ids in canonical
order. The model lists the 66 protocanonical ids; no theorem in this file
depends on the particular numbering, only on `compareScrRefs` being a
function of its two arguments. -/
def allBookIds : List String :=
  ["GEN", "EXO", "LEV", "NUM", "DEU", "JOS", "JDG", "RUT", "1SA", "2SA",
   "1KI", "2KI", "1CH", "2CH", "EZR", "NEH", "EST", "JOB", "PSA", "PRO",
   "ECC", "SNG", "ISA", "JER", "LAM", "EZK", "DAN", "HOS", "JOL", "AMO",
   "OBA", "JON", "MIC", "NAM", "HAB", "ZEP", "HAG", "ZEC", "MAL", "MAT",
   "MRK", "LUK", "JHN", "ACT", "ROM", "1CO", "2CO", "GAL", "EPH", "PHP",
   "COL", "1TH", "2TH", "1TI", "2TI", "TIT", "PHM", "HEB", "JAS", "1PE",
   "2PE", "1JN", "2JN", "3JN", "JUD", "REV"]

/-- Modelled dependency (@sillsdev/scripture `Canon.bookIdToNumber`): 1-based
canonical book number, 0 for an unknown id. -/
def bookIdToNumber (bookId : String) : Int :=
  match allBookIds.indexOf? bookId with
  | some i => (i : Int) + 1
  | none => 0

/-- Modelled dependency (platform-bible-utils `scrRefToBBBCCCVVV`). -/
def scrRefToBBBCCCVVV (r : SerializedVerseRef) : Int :=
  bookIdToNumber r.book * 1000000 + r.chapterNum * 1000 + r.verseNum

/-- Modelled dependency (platform-bible-utils `compareScrRefs`): the signed
difference of the two BBBCCCVVV encodings. -/
def compareScrRefs (a b : SerializedVerseRef) : Int :=
  scrRefToBBBCCCVVV a - scrRefToBBBCCCVVV b

/-- `isScrRef` from main.ts: JS `typeof scrollRef === 'object'`, true exactly
for the scripture-reference (object) alternative, false for a number and for
`undefined`. -/
def isScrRef : Option ScrollGroupScrRef → Bool
  | some (ScrollGroupScrRef.scrRef _) => true
  | _ => false

/-- `hasScrollGroupChanged` from main.ts. -/
def hasScrollGroupChanged (oldRef newRef : Option ScrollGroupScrRef) : Bool :=
  match oldRef, newRef with
  | none, none => false
  | some (ScrollGroupScrRef.scrollGroupId a), some (ScrollGroupScrRef.scrollGroupId b) =>
    a != b
  | some (ScrollGroupScrRef.scrRef a), some (ScrollGroupScrRef.scrRef b) =>
    compareScrRefs a b != 0
  | _, _ => true

/-- `shouldUpdateOnScriptureRefChange` from main.ts. The command key is an
`Option` because the in-memory map can hand the handlers a value that is
`undefined` at runtime; `websiteOptions.get` on such a key yields `undefined`.
The initial `if (!watchRefChange) return false` uses JS truthiness, so both a
missing configuration entry and `DoNotWatch` (numeric value 0) return false. -/
def shouldUpdateOnScriptureRefChange (websiteOptions : List (String × FaithbridgeOptions))
    (commandKey : Option String) (oldRef newRef : SerializedVerseRef) : Bool :=
  let watchRefChange : Option RefChange :=
    (commandKey.bind (fun c => mapGet websiteOptions c)).map (fun o => o.watchRefChange)
  if !truthyRefChange watchRefChange then false
  else
    let bookChanged : Bool := newRef.book != oldRef.book
    let chapterChanged : Bool := newRef.chapterNum != oldRef.chapterNum
    let verseChanged : Bool := newRef.verseNum != oldRef.verseNum
    match watchRefChange with
    | some RefChange.WatchBookChange => bookChanged
    | some RefChange.WatchChapterChange => chapterChanged || bookChanged
    | some RefChange.WatchVerseChange => chapterChanged || bookChanged || verseChanged
    | _ => false

/-- The module-level mutable state of main.ts: the two in-memory maps, the
host user-data store (`papi.storage`, keyed strings), the module-level
`websiteOptions` map set during activation, and the cached interface
language setting. -/
structure ExtensionState where
  commandByWebViewId : List (String × Option String)
  scrollGroupInfoByWebViewId : List (String × ScrollGroupInfo)
  userData : List (String × String)
  websiteOptions : List (String × FaithbridgeOptions)
  interfaceLanguage : List String

/-- The fields of `SavedWebViewDefinition` that main.ts reads. -/
structure SavedWebViewDefinition where
  id : String
  webViewType : String
  scrollGroupScrRef : Option ScrollGroupScrRef
deriving DecidableEq, Repr

/-- The web view definition returned by `getWebView`: the saved definition
spread together with the fields main.ts sets. -/
structure WebViewDefinition where
  id : String
  webViewType : String
  scrollGroupScrRef : Option ScrollGroupScrRef
  content : String
  contentType : String
  title : String
  allowScripts : Bool
  allowPopups : Bool
  shouldShowToolbar : Bool
deriving DecidableEq, Repr

/-- `getCurrentScriptureReference` from main.ts: a scroll group id (or
`undefined`) is resolved through the host service `papi.scrollGroups.getScrRef`
(passed in as `getScrRef`); a scripture reference is returned as is. The JS
guard `!scrollGroupRef || typeof scrollGroupRef === 'number'` covers
`undefined` and every number (0 is falsy but is a number anyway). -/
def getCurrentScriptureReference (getScrRef : Option Int → SerializedVerseRef) :
    Option ScrollGroupScrRef → SerializedVerseRef
  | none => getScrRef none
  | some (ScrollGroupScrRef.scrollGroupId n) => getScrRef (some n)
  | some (ScrollGroupScrRef.scrRef r) => r

/-- The command resolution in `getWebView`:
`basicOptions.openWebsiteCommand ?? commandByWebViewId.get(id) ?? readUserData(key)`.
`??` is nullish coalescing, so an empty string on the left is kept. The map
lookup is flattened because an entry can hold a runtime `undefined`. A host
read of a missing user-data key is modelled as an absent value. -/
def resolveCommand (commandByWebViewId : List (String × Option String))
    (userData : List (String × String)) (webViewId : String)
    (openWebsiteCommand : Option String) : Option String :=
  openWebsiteCommand <|> (mapGet commandByWebViewId webViewId).join <|>
    mapGet userData (USER_DATA_KEY ++ webViewId)

/-- The options lookup in `getWebView`:
`websiteOptions.get(command) || DEFAULT_OPTIONS` (an object is always truthy,
so `||` falls back exactly when the lookup is `undefined`). -/
def optionsForCommand (websiteOptions : List (String × FaithbridgeOptions))
    (command : Option String) : FaithbridgeOptions :=
  (command.bind (fun c => mapGet websiteOptions c)).getD DEFAULT_FAITHBRIDGE_OPTIONS

/-- The write step at the start of `getWebView`: when a truthy
`openWebsiteCommand` was passed, it is stored in the in-memory command map
under the web view id. -/
def commandMapAfterWrite (commandByWebViewId : List (String × Option String))
    (webViewId : String) (openWebsiteCommand : Option String) :
    List (String × Option String) :=
  if truthyStr openWebsiteCommand then
    mapSet commandByWebViewId webViewId openWebsiteCommand
  else commandByWebViewId

/-- The write step at the start of `getWebView`: when a truthy
`openWebsiteCommand` was passed, it is persisted to user data under
`USER_DATA_KEY ++ webViewId` (a truthy option always holds its string, so the
`getD` default is never used). -/
def userDataAfterWrite (userData : List (String × String)) (webViewId : String)
    (openWebsiteCommand : Option String) : List (String × String) :=
  if truthyStr openWebsiteCommand then
    mapSet userData (USER_DATA_KEY ++ webViewId) (openWebsiteCommand.getD "")
  else userData

/-- The command `getWebView` resolves for a request: the `const command = ...`
line of main.ts, evaluated after the write step. -/
def getWebViewResolvedCommand (st : ExtensionState) (webViewId : String)
    (openWebsiteCommand : Option String) : Option String :=
  resolveCommand
    (commandMapAfterWrite st.commandByWebViewId webViewId openWebsiteCommand)
    (userDataAfterWrite st.userData webViewId openWebsiteCommand)
    webViewId openWebsiteCommand

/-- `faithbridgeWebViewProvider.getWebView` from main.ts. Host services are
explicit arguments: `getScrRef` models `papi.scrollGroups.getScrRef` and
`titleFormatString` the localized `%faithbridge_title_format%` string. The
result pairs the thrown-or-returned value with the module state after the
call (the state is unchanged when the type check throws). -/
def getWebView (getScrRef : Option Int → SerializedVerseRef)
    (titleFormatString : String) (st : ExtensionState)
    (savedWebView : SavedWebViewDefinition) (openWebsiteCommand : Option String) :
    Except String WebViewDefinition × ExtensionState :=
  if savedWebView.webViewType != FAITHBRIDGE_WEBVIEW_TYPE then
    (Except.error (FAITHBRIDGE_WEBVIEW_TYPE ++
      " provider received request to provide a " ++ savedWebView.webViewType ++
      " web view"), st)
  else
    let currentScriptureReference :=
      getCurrentScriptureReference getScrRef savedWebView.scrollGroupScrRef
    let sgInfo := mapSet st.scrollGroupInfoByWebViewId savedWebView.id
      { scrollGroupScrRef := savedWebView.scrollGroupScrRef
        scrRef := currentScriptureReference }
    let cmdMap0 :=
      commandMapAfterWrite st.commandByWebViewId savedWebView.id openWebsiteCommand
    let userData0 :=
      userDataAfterWrite st.userData savedWebView.id openWebsiteCommand
    let command : Option String :=
      resolveCommand cmdMap0 userData0 savedWebView.id openWebsiteCommand
    let cmdMap1 := if truthyStr (mapGet cmdMap0 savedWebView.id).join then cmdMap0
      else mapSet cmdMap0 savedWebView.id command
    let options := optionsForCommand st.websiteOptions command
    let url := options.getUrl currentScriptureReference st.interfaceLanguage
    (Except.ok
      { id := savedWebView.id
        webViewType := savedWebView.webViewType
        scrollGroupScrRef := savedWebView.scrollGroupScrRef
        content := url
        contentType := "url"
        title := getWebViewTitle titleFormatString options.websiteName
        allowScripts := true
        allowPopups := true
        shouldShowToolbar := options.watchRefChange != RefChange.DoNotWatch },
     { st with
        commandByWebViewId := cmdMap1
        scrollGroupInfoByWebViewId := sgInfo
        userData := userData0 })

/-- The web view options that `openFaithbridgeByType` passes to
`papi.webViews.openWebView`. -/
structure WebViewOpenOptions where
  openWebsiteCommand : String
  existingId : Option String
deriving DecidableEq, Repr

/-- `openFaithbridgeByType` from main.ts: the options it builds for
`papi.webViews.openWebView`. `existingId` is the reverse lookup
`Array.from(commandByWebViewId.entries()).find(([, command]) => command === openWebsiteCommand)?.[0]`. -/
def openFaithbridgeByType (commandByWebViewId : List (String × Option String))
    (openWebsiteCommand : String) : WebViewOpenOptions :=
  { openWebsiteCommand := openWebsiteCommand
    existingId :=
      (commandByWebViewId.find? (fun p => p.2 == some openWebsiteCommand)).map
        (fun p => p.1) }

/-- `registerOpenWebsiteCommandHandlers` from main.ts registers one command
handler per entry of `websiteOptions`; the model returns the list of command
keys a handler is registered for. -/
def registerOpenWebsiteCommandHandlers
    (websiteOptions : List (String × FaithbridgeOptions)) : List String :=
  websiteOptions.map (fun p => p.1)

/-- The `papi.scrollGroups.onDidUpdateScrRef` handler in `activate`: the ids
of the web views it reopens (via `reopenFaithbridgeByExistingId`) for a
scripture-reference update carrying `newScrRef`. -/
def onDidUpdateScrRefReopenIds (st : ExtensionState)
    (newScrRef : SerializedVerseRef) : List String :=
  (st.commandByWebViewId.filter (fun p =>
    shouldUpdateOnScriptureRefChange st.websiteOptions p.2
      (((mapGet st.scrollGroupInfoByWebViewId p.1).map (fun i => i.scrRef)).getD
        SCR_REF_TO_TRIGGER_UPDATE)
      newScrRef)).map (fun p => p.1)

/-- The `papi.webViews.onDidUpdateWebView` handler in `activate`: whether it
calls `reopenFaithbridgeByExistingId` for an update event on the web view
`webViewId` whose new `scrollGroupScrRef` is `newScrollRef`. The
`shouldUpdateOnScriptureRefChange` call on the right of `||` only runs when
`newScrollRef` is a scripture-reference object (short-circuit), which is when
it can be passed as a `SerializedVerseRef`. -/
def onDidUpdateWebViewShouldReopen (st : ExtensionState) (webViewId : String)
    (newScrollRef : Option ScrollGroupScrRef) : Bool :=
  if !mapHas st.commandByWebViewId webViewId then false
  else
    let command := (mapGet st.commandByWebViewId webViewId).join
    if !truthyStr command then false
    else
      match command with
      | none => false
      | some c =>
        let options := (mapGet st.websiteOptions c).getD DEFAULT_FAITHBRIDGE_OPTIONS
        if options.watchRefChange = RefChange.DoNotWatch then false
        else
          let oldScrollGroupInfo := mapGet st.scrollGroupInfoByWebViewId webViewId
          let refChanged := hasScrollGroupChanged
            (oldScrollGroupInfo.bind (fun i => i.scrollGroupScrRef)) newScrollRef
          let shouldUpdate := match newScrollRef with
            | some (ScrollGroupScrRef.scrRef r) =>
              shouldUpdateOnScriptureRefChange st.websiteOptions (some c)
                ((oldScrollGroupInfo.map (fun i => i.scrRef)).getD
                  SCR_REF_TO_TRIGGER_UPDATE) r
            | _ => true
          refChanged && shouldUpdate

/-- The `papi.webViews.onDidCloseWebView` handler in `activate`: when the
closed id is tracked, it is removed from both in-memory maps and its persisted
user-data record is deleted; otherwise nothing happens. -/
def onDidCloseWebView (st : ExtensionState) (webViewId : String) : ExtensionState :=
  if mapHas st.commandByWebViewId webViewId then
    { st with
        commandByWebViewId := mapDelete st.commandByWebViewId webViewId
        scrollGroupInfoByWebViewId := mapDelete st.scrollGroupInfoByWebViewId webViewId
        userData := mapDelete st.userData (USER_DATA_KEY ++ webViewId) }
  else st

/-! Helper lemmas about the association-list model of JS `Map`. -/

theorem mapHas_eq_isSome {α : Type} (m : List (String × α)) (k : String) :
    mapHas m k = (mapGet m k).isSome := by
  unfold mapHas mapGet
  cases m.find? (fun p => p.1 == k) <;> rfl

theorem mapGet_mapDelete_self {α : Type} (m : List (String × α)) (k : String) :
    mapGet (mapDelete m k) k = none := by
  unfold mapGet mapDelete
  rw [Option.map_eq_none', List.find?_eq_none]
  intro p hp
  have hq := List.of_mem_filter hp
  simp only [bne_iff_ne, ne_eq] at hq
  simp [hq]

theorem mapGet_mapDelete_ne {α : Type} (m : List (String × α)) (k k' : String)
    (h : k' ≠ k) : mapGet (mapDelete m k) k' = mapGet m k' := by
  unfold mapGet mapDelete
  induction m with
  | nil => rfl
  | cons p t ih =>
    by_cases hp : p.1 = k
    · have hf : List.filter (fun q => q.1 != k) (p :: t) =
          List.filter (fun q => q.1 != k) t := by
        simp [List.filter_cons, hp]
      have hne : ¬ (p.1 == k') = true := by
        simp only [beq_iff_eq, hp]
        exact fun hh => h hh.symm
      rw [hf, List.find?_cons_of_neg t hne]
      exact ih
    · have hf : List.filter (fun q => q.1 != k) (p :: t) =
          p :: List.filter (fun q => q.1 != k) t := by
        simp [List.filter_cons, hp]
      rw [hf]
      by_cases hk' : (p.1 == k') = true
      · rw [@List.find?_cons_of_pos _ (fun q => q.1 == k') p
          (List.filter (fun q => q.1 != k) t) hk',
          @List.find?_cons_of_pos _ (fun q => q.1 == k') p t hk']
      · rw [@List.find?_cons_of_neg _ (fun q => q.1 == k') p
          (List.filter (fun q => q.1 != k) t) hk',
          @List.find?_cons_of_neg _ (fun q => q.1 == k') p t hk']
        exact ih

theorem mapGet_eq_some_of_mem {α : Type} {m : List (String × α)} {k : String}
    {v : α} (hnd : (m.map Prod.fst).Nodup) (hmem : (k, v) ∈ m) :
    mapGet m k = some v := by
  unfold mapGet
  induction m with
  | nil => cases hmem
  | cons p t ih =>
    simp only [List.map_cons, List.nodup_cons] at hnd
    rcases List.mem_cons.mp hmem with hh | ht
    · subst hh
      simp [List.find?_cons]
    · by_cases hp : p.1 = k
      · exfalso
        exact hnd.1 (hp ▸ (List.mem_map.mpr ⟨(k, v), ht, rfl⟩))
      · simpa [List.find?_cons, hp] using ih hnd.2 ht

theorem userDataKey_inj (a b : String)
    (h : USER_DATA_KEY ++ a = USER_DATA_KEY ++ b) : a = b := by
  have h2 := congrArg String.data h
  simp [String.data_append] at h2
  exact String.ext h2

/-- C1: The reload decision follows the three-level granularity policy: for
every command key and pair of references, `shouldUpdateOnScriptureRefChange`
returns true exactly when a watched component differs (book under
`WatchBookChange`; book or chapter under `WatchChapterChange`; book, chapter
or verse under `WatchVerseChange`) and returns false when the configured
sensitivity is `DoNotWatch` or the command has no configuration entry. -/
theorem shouldUpdate_granularity (ws : List (String × FaithbridgeOptions))
    (c : String) (o n : SerializedVerseRef) :
    (mapGet ws c = none → shouldUpdateOnScriptureRefChange ws (some c) o n = false) ∧
    (∀ opts, mapGet ws c = some opts →
      ((opts.watchRefChange = RefChange.DoNotWatch →
          shouldUpdateOnScriptureRefChange ws (some c) o n = false) ∧
       (opts.watchRefChange = RefChange.WatchBookChange →
          (shouldUpdateOnScriptureRefChange ws (some c) o n = true ↔
            n.book ≠ o.book)) ∧
       (opts.watchRefChange = RefChange.WatchChapterChange →
          (shouldUpdateOnScriptureRefChange ws (some c) o n = true ↔
            n.book ≠ o.book ∨ n.chapterNum ≠ o.chapterNum)) ∧
       (opts.watchRefChange = RefChange.WatchVerseChange →
          (shouldUpdateOnScriptureRefChange ws (some c) o n = true ↔
            n.book ≠ o.book ∨ n.chapterNum ≠ o.chapterNum ∨
              n.verseNum ≠ o.verseNum)))) := by
  constructor
  · intro h
    simp [shouldUpdateOnScriptureRefChange, h, truthyRefChange]
  · intro opts h
    refine ⟨?_, ?_, ?_, ?_⟩ <;> intro hw <;>
      simp [shouldUpdateOnScriptureRefChange, h, hw, truthyRefChange,
        RefChange.toNum] <;> tauto

/-- Witness for C1 at a concrete configuration and verse change. -/
theorem shouldUpdate_granularity_witness :
    shouldUpdateOnScriptureRefChange getWebsiteOptions
      (some "faithbridge.openFaithbridge")
      { book := "GEN", chapterNum := 1, verseNum := 1 }
      { book := "GEN", chapterNum := 1, verseNum := 2 } = true := by
  have h := (shouldUpdate_granularity getWebsiteOptions "faithbridge.openFaithbridge"
    { book := "GEN", chapterNum := 1, verseNum := 1 }
    { book := "GEN", chapterNum := 1, verseNum := 2 }).2
    { getUrl := fun _scrRef _lang => "https://faithbridge.multilingualai.com/bible-well"
      websiteName := "Faithbridge"
      watchRefChange := RefChange.WatchVerseChange } rfl
  exact (h.2.2.2 rfl).mpr (by simp)

/-- C4: `openFaithbridgeByType` passes `existingId` equal to a web view id
already mapped to the invoked command when one exists and `undefined`
otherwise, so a command reopens its single existing view. -/
theorem openFaithbridge_single_instance (m : List (String × Option String))
    (c : String) :
    (openFaithbridgeByType m c).openWebsiteCommand = c ∧
    (∀ id, (openFaithbridgeByType m c).existingId = some id → (id, some c) ∈ m) ∧
    ((∃ id, (id, some c) ∈ m) →
      ∃ id, (openFaithbridgeByType m c).existingId = some id) ∧
    ((openFaithbridgeByType m c).existingId = none → ∀ id, (id, some c) ∉ m) := by
  have hnone : (openFaithbridgeByType m c).existingId = none →
      ∀ id, (id, some c) ∉ m := by
    intro h id hmem
    simp only [openFaithbridgeByType, Option.map_eq_none'] at h
    have hx := List.find?_eq_none.mp h _ hmem
    simp at hx
  refine ⟨rfl, ?_, ?_, hnone⟩
  · intro id h
    simp only [openFaithbridgeByType, Option.map_eq_some'] at h
    obtain ⟨p, hfind, hfst⟩ := h
    have hmem := List.mem_of_find?_eq_some hfind
    have hpred := List.find?_some hfind
    simp only [beq_iff_eq] at hpred
    have hp : p = (id, some c) := by
      cases p
      simp_all
    rwa [hp] at hmem
  · rintro ⟨id, hmem⟩
    cases hE : (openFaithbridgeByType m c).existingId with
    | some i => exact ⟨i, rfl⟩
    | none => exact absurd hmem (hnone hE id)

/-- Witness for C4: a one-entry map reuses the existing web view id. -/
theorem openFaithbridge_single_instance_witness :
    ("wv1", some "faithbridge.openFaithbridge") ∈
      [("wv1", (some "faithbridge.openFaithbridge" : Option String))] := by
  have h := openFaithbridge_single_instance
    [("wv1", some "faithbridge.openFaithbridge")] "faithbridge.openFaithbridge"
  exact h.2.1 "wv1" (by decide)

/-- C7: the site configuration is static with exactly one entry, mapping
`faithbridge.openFaithbridge` to the Faithbridge site watching verse changes,
and one command handler is registered per entry. -/
theorem getWebsiteOptions_static :
    getWebsiteOptions.map (fun p => p.1) = ["faithbridge.openFaithbridge"] ∧
    (mapGet getWebsiteOptions "faithbridge.openFaithbridge").map
      (fun o => o.websiteName) = some "Faithbridge" ∧
    (mapGet getWebsiteOptions "faithbridge.openFaithbridge").map
      (fun o => o.watchRefChange) = some RefChange.WatchVerseChange ∧
    registerOpenWebsiteCommandHandlers getWebsiteOptions =
      getWebsiteOptions.map (fun p => p.1) :=
  ⟨rfl, rfl, rfl, rfl⟩

/-- C8: the scroll-group change detector never reports a change for an
identical position. -/
theorem hasScrollGroupChanged_refl (x : Option ScrollGroupScrRef) :
    hasScrollGroupChanged x x = false := by
  rcases x with _ | (n | r)
  · rfl
  · simp [hasScrollGroupChanged]
  · simp [hasScrollGroupChanged, compareScrRefs]

/-- C9: the configured Faithbridge URL builder is a constant function of the
reading position and interface language. -/
theorem faithbridge_getUrl_constant (scrRef : SerializedVerseRef)
    (lang : List String) :
    (mapGet getWebsiteOptions "faithbridge.openFaithbridge").map
      (fun o => o.getUrl scrRef lang) =
      some "https://faithbridge.multilingualai.com/bible-well" := rfl

theorem findReplace_self {α : Type} (t : List (String × α)) (k : String) (v : α)
    (h : (t.find? (fun p => p.1 == k)).isSome = true) :
    (t.map (fun p => if p.1 == k then (k, v) else p)).find? (fun p => p.1 == k) =
      some (k, v) := by
  induction t with
  | nil => simp at h
  | cons p t ih =>
    by_cases hp : (p.1 == k) = true
    · have hpe : p.1 = k := beq_iff_eq.mp hp
      simp [List.find?_cons, hpe]
    · have h2 : (t.find? (fun p => p.1 == k)).isSome = true := by
        rw [@List.find?_cons_of_neg _ (fun p => p.1 == k) p t hp] at h
        exact h
      simp only [List.map_cons, if_neg hp]
      rw [@List.find?_cons_of_neg _ (fun p => p.1 == k) p _ hp]
      exact ih h2

theorem mapGet_mapSet_self {α : Type} (m : List (String × α)) (k : String) (v : α) :
    mapGet (mapSet m k v) k = some v := by
  unfold mapSet
  by_cases h : mapHas m k = true
  · rw [if_pos h]
    unfold mapGet
    rw [findReplace_self m k v h]
    rfl
  · rw [if_neg h]
    unfold mapHas at h
    unfold mapGet
    rw [List.find?_append]
    have hnone : m.find? (fun p => p.1 == k) = none := by
      cases hf : m.find? (fun p => p.1 == k) with
      | none => rfl
      | some p => exact absurd (by rw [hf]; rfl) h
    simp [hnone, List.find?_cons]

/-- Unfolding equation for `getWebView` when the saved web view has the
faithbridge type: the returned definition and the state after the call. -/
theorem getWebView_eq_ok (getScrRef : Option Int → SerializedVerseRef)
    (fmt : String) (st : ExtensionState) (sv : SavedWebViewDefinition)
    (cmd : Option String) (h : sv.webViewType = FAITHBRIDGE_WEBVIEW_TYPE) :
    getWebView getScrRef fmt st sv cmd =
      (Except.ok
        { id := sv.id
          webViewType := sv.webViewType
          scrollGroupScrRef := sv.scrollGroupScrRef
          content := (optionsForCommand st.websiteOptions
              (getWebViewResolvedCommand st sv.id cmd)).getUrl
            (getCurrentScriptureReference getScrRef sv.scrollGroupScrRef)
            st.interfaceLanguage
          contentType := "url"
          title := getWebViewTitle fmt (optionsForCommand st.websiteOptions
            (getWebViewResolvedCommand st sv.id cmd)).websiteName
          allowScripts := true
          allowPopups := true
          shouldShowToolbar := (optionsForCommand st.websiteOptions
            (getWebViewResolvedCommand st sv.id cmd)).watchRefChange !=
              RefChange.DoNotWatch },
       { st with
          commandByWebViewId :=
            if truthyStr ((mapGet (commandMapAfterWrite st.commandByWebViewId
                sv.id cmd) sv.id).join) then
              commandMapAfterWrite st.commandByWebViewId sv.id cmd
            else
              mapSet (commandMapAfterWrite st.commandByWebViewId sv.id cmd)
                sv.id (getWebViewResolvedCommand st sv.id cmd)
          scrollGroupInfoByWebViewId := mapSet st.scrollGroupInfoByWebViewId sv.id
            { scrollGroupScrRef := sv.scrollGroupScrRef
              scrRef := getCurrentScriptureReference getScrRef sv.scrollGroupScrRef }
          userData := userDataAfterWrite st.userData sv.id cmd }) := by
  have hcond : (sv.webViewType != FAITHBRIDGE_WEBVIEW_TYPE) = false := by simp [h]
  unfold getWebView
  rw [hcond]
  rfl

/-- C2: a `getWebView` request for a saved faithbridge web view returns a
definition whose `contentType` is `'url'` and whose `content` is the resolved
command's configured URL builder applied to the resolved current scripture
reference and the interface language. -/
theorem getWebView_content_url (getScrRef : Option Int → SerializedVerseRef)
    (fmt : String) (st : ExtensionState) (sv : SavedWebViewDefinition)
    (cmd : Option String) (h : sv.webViewType = FAITHBRIDGE_WEBVIEW_TYPE) :
    ∃ wvd st2, getWebView getScrRef fmt st sv cmd = (Except.ok wvd, st2) ∧
      wvd.contentType = "url" ∧
      wvd.content = (optionsForCommand st.websiteOptions
          (getWebViewResolvedCommand st sv.id cmd)).getUrl
        (getCurrentScriptureReference getScrRef sv.scrollGroupScrRef)
        st.interfaceLanguage := by
  rw [getWebView_eq_ok getScrRef fmt st sv cmd h]
  exact ⟨_, _, rfl, rfl, rfl⟩

/-- Witness for C2 at a concrete request. -/
theorem getWebView_content_url_witness :
    ∃ wvd st2,
      getWebView (fun _ => SCR_REF_TO_TRIGGER_UPDATE) ""
          ⟨[], [], [], [], []⟩ ⟨"wv1", "faithbridge.webView", none⟩ none =
        (Except.ok wvd, st2) ∧
      wvd.contentType = "url" ∧
      wvd.content = (optionsForCommand []
          (getWebViewResolvedCommand ⟨[], [], [], [], []⟩ "wv1" none)).getUrl
        (getCurrentScriptureReference (fun _ => SCR_REF_TO_TRIGGER_UPDATE) none)
        [] :=
  getWebView_content_url (fun _ => SCR_REF_TO_TRIGGER_UPDATE) ""
    ⟨[], [], [], [], []⟩ ⟨"wv1", "faithbridge.webView", none⟩ none rfl

/-- C3: the command that opened a view is persisted and restored: a request
carrying a (truthy) `openWebsiteCommand` writes it to user data under
`'webViewTypeById_' ++ id`; a request without one, whose id is absent from the
in-memory command map, reads the command back from that key, reinstates it
into the in-memory map, and looks the options up from it. -/
theorem getWebView_persist_restore (getScrRef : Option Int → SerializedVerseRef)
    (fmt : String) (st : ExtensionState) (sv : SavedWebViewDefinition) :
    (∀ s, s ≠ "" → sv.webViewType = FAITHBRIDGE_WEBVIEW_TYPE →
      ∃ wvd st2, getWebView getScrRef fmt st sv (some s) = (Except.ok wvd, st2) ∧
        mapGet st2.userData (USER_DATA_KEY ++ sv.id) = some s) ∧
    (sv.webViewType = FAITHBRIDGE_WEBVIEW_TYPE →
      mapHas st.commandByWebViewId sv.id = false →
      ∀ s, mapGet st.userData (USER_DATA_KEY ++ sv.id) = some s →
        ∃ wvd st2, getWebView getScrRef fmt st sv none = (Except.ok wvd, st2) ∧
          mapGet st2.commandByWebViewId sv.id = some (some s) ∧
          wvd.content = (optionsForCommand st.websiteOptions (some s)).getUrl
            (getCurrentScriptureReference getScrRef sv.scrollGroupScrRef)
            st.interfaceLanguage) := by
  constructor
  · intro s hs h
    rw [getWebView_eq_ok getScrRef fmt st sv (some s) h]
    refine ⟨_, _, rfl, ?_⟩
    have htr : truthyStr (some s) = true := by simp [truthyStr, hs]
    show mapGet (userDataAfterWrite st.userData sv.id (some s))
      (USER_DATA_KEY ++ sv.id) = some s
    unfold userDataAfterWrite
    rw [htr]
    simpa using mapGet_mapSet_self st.userData (USER_DATA_KEY ++ sv.id) s
  · intro h hhas s hget
    rw [getWebView_eq_ok getScrRef fmt st sv none h]
    have hmg : mapGet st.commandByWebViewId sv.id = none := by
      cases hx : mapGet st.commandByWebViewId sv.id with
      | none => rfl
      | some v =>
        rw [mapHas_eq_isSome, hx] at hhas
        simp at hhas
    have hw : commandMapAfterWrite st.commandByWebViewId sv.id none =
        st.commandByWebViewId := rfl
    have hu : userDataAfterWrite st.userData sv.id none = st.userData := rfl
    have hres : getWebViewResolvedCommand st sv.id none = some s := by
      unfold getWebViewResolvedCommand resolveCommand
      rw [hw, hu, hmg]
      simpa using hget
    refine ⟨_, _, rfl, ?_, ?_⟩
    · show mapGet
        (if truthyStr ((mapGet (commandMapAfterWrite st.commandByWebViewId
            sv.id none) sv.id).join) then
          commandMapAfterWrite st.commandByWebViewId sv.id none
        else
          mapSet (commandMapAfterWrite st.commandByWebViewId sv.id none)
            sv.id (getWebViewResolvedCommand st sv.id none)) sv.id =
        some (some s)
      rw [hw, hmg, hres]
      simpa using mapGet_mapSet_self st.commandByWebViewId sv.id (some s)
    · show (optionsForCommand st.websiteOptions
          (getWebViewResolvedCommand st sv.id none)).getUrl
        (getCurrentScriptureReference getScrRef sv.scrollGroupScrRef)
        st.interfaceLanguage =
        (optionsForCommand st.websiteOptions (some s)).getUrl
          (getCurrentScriptureReference getScrRef sv.scrollGroupScrRef)
          st.interfaceLanguage
      rw [hres]

/-- Witness for C3: a request carrying the command persists it, and a fresh
request after a restart (empty in-memory map, stored record) restores it. -/
theorem getWebView_persist_restore_witness :
    (∃ wvd st2, getWebView (fun _ => SCR_REF_TO_TRIGGER_UPDATE) ""
        ⟨[], [], [], [], []⟩ ⟨"wv1", "faithbridge.webView", none⟩
        (some "faithbridge.openFaithbridge") = (Except.ok wvd, st2) ∧
      mapGet st2.userData (USER_DATA_KEY ++ "wv1") =
        some "faithbridge.openFaithbridge") ∧
    (∃ wvd st2, getWebView (fun _ => SCR_REF_TO_TRIGGER_UPDATE) ""
        ⟨[], [], [("webViewTypeById_wv1", "faithbridge.openFaithbridge")], [], []⟩
        ⟨"wv1", "faithbridge.webView", none⟩ none = (Except.ok wvd, st2) ∧
      mapGet st2.commandByWebViewId "wv1" =
        some (some "faithbridge.openFaithbridge") ∧
      wvd.content = (optionsForCommand []
          (some "faithbridge.openFaithbridge")).getUrl
        (getCurrentScriptureReference (fun _ => SCR_REF_TO_TRIGGER_UPDATE) none)
        []) := by
  constructor
  · exact (getWebView_persist_restore (fun _ => SCR_REF_TO_TRIGGER_UPDATE) ""
      ⟨[], [], [], [], []⟩ ⟨"wv1", "faithbridge.webView", none⟩).1
      "faithbridge.openFaithbridge" (by decide) rfl
  · exact (getWebView_persist_restore (fun _ => SCR_REF_TO_TRIGGER_UPDATE) ""
      ⟨[], [], [("webViewTypeById_wv1", "faithbridge.openFaithbridge")], [], []⟩
      ⟨"wv1", "faithbridge.webView", none⟩).2 rfl (by decide)
      "faithbridge.openFaithbridge" (by decide)

/-- C10: `getWebView` rejects foreign view types atomically: a saved web view
of another type makes it throw, and the module state (both in-memory maps and
the user data store) is exactly unchanged. -/
theorem getWebView_foreign_type_rejected (getScrRef : Option Int → SerializedVerseRef)
    (fmt : String) (st : ExtensionState) (sv : SavedWebViewDefinition)
    (cmd : Option String) (h : sv.webViewType ≠ FAITHBRIDGE_WEBVIEW_TYPE) :
    getWebView getScrRef fmt st sv cmd =
      (Except.error (FAITHBRIDGE_WEBVIEW_TYPE ++
        " provider received request to provide a " ++ sv.webViewType ++
        " web view"), st) := by
  have hcond : (sv.webViewType != FAITHBRIDGE_WEBVIEW_TYPE) = true := by
    simp [bne_iff_ne, h]
  unfold getWebView
  rw [hcond]
  rfl

/-- Witness for C10 at a concrete foreign view type. -/
theorem getWebView_foreign_type_rejected_witness :
    getWebView (fun _ => SCR_REF_TO_TRIGGER_UPDATE) ""
        ⟨[], [], [], [], []⟩ ⟨"wv1", "platformScripture.editor", none⟩ none =
      (Except.error (FAITHBRIDGE_WEBVIEW_TYPE ++
        " provider received request to provide a " ++ "platformScripture.editor" ++
        " web view"), ⟨[], [], [], [], []⟩) :=
  getWebView_foreign_type_rejected (fun _ => SCR_REF_TO_TRIGGER_UPDATE) ""
    ⟨[], [], [], [], []⟩ ⟨"wv1", "platformScripture.editor", none⟩ none (by decide)

theorem shouldUpdate_false_of_doNotWatch (ws : List (String × FaithbridgeOptions))
    (cv : Option String) (o n : SerializedVerseRef)
    (h : (optionsForCommand ws cv).watchRefChange = RefChange.DoNotWatch) :
    shouldUpdateOnScriptureRefChange ws cv o n = false := by
  unfold optionsForCommand at h
  cases hcb : cv.bind (fun c => mapGet ws c) with
  | none => simp [shouldUpdateOnScriptureRefChange, hcb, truthyRefChange]
  | some o2 =>
    rw [hcb] at h
    simp only [Option.getD_some] at h
    simp [shouldUpdateOnScriptureRefChange, hcb, h, truthyRefChange,
      RefChange.toNum]

/-- C5: a view whose command's configured change-sensitivity is `DoNotWatch`
is never re-rendered: neither the scripture-reference update handler nor the
web-view update handler reopens it. -/
theorem doNotWatch_never_reopened (st : ExtensionState) (id : String)
    (cmdv : Option String) (newScrRef : SerializedVerseRef)
    (newScrollRef : Option ScrollGroupScrRef)
    (hnd : (st.commandByWebViewId.map Prod.fst).Nodup)
    (hcmd : mapGet st.commandByWebViewId id = some cmdv)
    (hdnw : (optionsForCommand st.websiteOptions cmdv).watchRefChange =
      RefChange.DoNotWatch) :
    id ∉ onDidUpdateScrRefReopenIds st newScrRef ∧
    onDidUpdateWebViewShouldReopen st id newScrollRef = false := by
  constructor
  · intro hmem
    simp only [onDidUpdateScrRefReopenIds, List.mem_map] at hmem
    obtain ⟨p, hp, hfst⟩ := hmem
    have hpm := List.mem_of_mem_filter hp
    have hpred := List.of_mem_filter hp
    have hget : mapGet st.commandByWebViewId p.1 = some p.2 :=
      mapGet_eq_some_of_mem hnd (by cases p; exact hpm)
    rw [hfst, hcmd] at hget
    have hv : p.2 = cmdv := (Option.some.inj hget).symm
    rw [hv, shouldUpdate_false_of_doNotWatch st.websiteOptions cmdv _ _ hdnw]
      at hpred
    exact Bool.false_ne_true hpred
  · have hhas : mapHas st.commandByWebViewId id = true := by
      rw [mapHas_eq_isSome, hcmd]
      rfl
    cases cmdv with
    | none =>
      simp [onDidUpdateWebViewShouldReopen, hhas, hcmd, truthyStr]
    | some c =>
      by_cases hc : c = ""
      · subst hc
        simp [onDidUpdateWebViewShouldReopen, hhas, hcmd, truthyStr]
      · have hopt : ((mapGet st.websiteOptions c).getD
            DEFAULT_FAITHBRIDGE_OPTIONS).watchRefChange = RefChange.DoNotWatch := by
          simpa [optionsForCommand] using hdnw
        simp [onDidUpdateWebViewShouldReopen, hhas, hcmd, truthyStr, hc, hopt]

/-- Witness for C5: a tracked view whose command has no configuration entry
(so its options fall back to the default, which does not watch) is reopened by
neither handler. -/
theorem doNotWatch_never_reopened_witness :
    ((([("w1", (some "cmdA" : Option String))].map Prod.fst).Nodup ∧
      mapGet [("w1", (some "cmdA" : Option String))] "w1" = some (some "cmdA")) ∧
    ("w1" ∉ onDidUpdateScrRefReopenIds
        ⟨[("w1", some "cmdA")], [], [], [], []⟩ SCR_REF_TO_TRIGGER_UPDATE ∧
      onDidUpdateWebViewShouldReopen
        ⟨[("w1", some "cmdA")], [], [], [], []⟩ "w1" none = false)) :=
  ⟨⟨by simp, by decide⟩,
    doNotWatch_never_reopened ⟨[("w1", some "cmdA")], [], [], [], []⟩ "w1"
      (some "cmdA") SCR_REF_TO_TRIGGER_UPDATE none (by simp) (by decide) rfl⟩

/-- C6: closing a web view removes exactly its own tracking state: a tracked
id is removed from both in-memory maps and its persisted user-data record is
deleted, all other entries (and all other user-data keys) are unchanged, and
a close event for an untracked id changes nothing at all. -/
theorem close_removes_only_own (st : ExtensionState) (id : String) :
    (mapHas st.commandByWebViewId id = true →
      (mapGet (onDidCloseWebView st id).commandByWebViewId id = none ∧
       mapGet (onDidCloseWebView st id).scrollGroupInfoByWebViewId id = none ∧
       mapGet (onDidCloseWebView st id).userData (USER_DATA_KEY ++ id) = none ∧
       (∀ id2, id2 ≠ id →
         mapGet (onDidCloseWebView st id).commandByWebViewId id2 =
           mapGet st.commandByWebViewId id2 ∧
         mapGet (onDidCloseWebView st id).scrollGroupInfoByWebViewId id2 =
           mapGet st.scrollGroupInfoByWebViewId id2 ∧
         mapGet (onDidCloseWebView st id).userData (USER_DATA_KEY ++ id2) =
           mapGet st.userData (USER_DATA_KEY ++ id2)) ∧
       (∀ k, k ≠ USER_DATA_KEY ++ id →
         mapGet (onDidCloseWebView st id).userData k = mapGet st.userData k))) ∧
    (mapHas st.commandByWebViewId id = false → onDidCloseWebView st id = st) := by
  constructor
  · intro h
    have hcl : onDidCloseWebView st id =
        { st with
            commandByWebViewId := mapDelete st.commandByWebViewId id
            scrollGroupInfoByWebViewId :=
              mapDelete st.scrollGroupInfoByWebViewId id
            userData := mapDelete st.userData (USER_DATA_KEY ++ id) } := by
      unfold onDidCloseWebView
      rw [h]
      rfl
    rw [hcl]
    refine ⟨mapGet_mapDelete_self _ _, mapGet_mapDelete_self _ _,
      mapGet_mapDelete_self _ _, ?_, ?_⟩
    · intro id2 hne
      refine ⟨mapGet_mapDelete_ne _ _ _ hne, mapGet_mapDelete_ne _ _ _ hne, ?_⟩
      exact mapGet_mapDelete_ne _ _ _
        (fun hk => hne (userDataKey_inj id2 id hk))
    · intro k hk
      exact mapGet_mapDelete_ne _ _ _ hk
  · intro h
    unfold onDidCloseWebView
    rw [h]
    rfl

/-- Witness for C6 at a concrete tracked view. -/
theorem close_removes_only_own_witness :
    mapHas [("w1", (some "cmdA" : Option String))] "w1" = true ∧
    (mapGet (onDidCloseWebView
        ⟨[("w1", some "cmdA")], [⟨"w1", ⟨none, SCR_REF_TO_TRIGGER_UPDATE⟩⟩],
          [("webViewTypeById_w1", "cmdA")], [], []⟩ "w1").commandByWebViewId
        "w1" = none ∧
     mapGet (onDidCloseWebView
        ⟨[("w1", some "cmdA")], [⟨"w1", ⟨none, SCR_REF_TO_TRIGGER_UPDATE⟩⟩],
          [("webViewTypeById_w1", "cmdA")], [], []⟩ "w1").scrollGroupInfoByWebViewId
        "w1" = none ∧
     mapGet (onDidCloseWebView
        ⟨[("w1", some "cmdA")], [⟨"w1", ⟨none, SCR_REF_TO_TRIGGER_UPDATE⟩⟩],
          [("webViewTypeById_w1", "cmdA")], [], []⟩ "w1").userData
        (USER_DATA_KEY ++ "w1") = none ∧
     (∀ id2, id2 ≠ "w1" →
       mapGet (onDidCloseWebView
          ⟨[("w1", some "cmdA")], [⟨"w1", ⟨none, SCR_REF_TO_TRIGGER_UPDATE⟩⟩],
            [("webViewTypeById_w1", "cmdA")], [], []⟩ "w1").commandByWebViewId
          id2 = mapGet [("w1", (some "cmdA" : Option String))] id2 ∧
       mapGet (onDidCloseWebView
          ⟨[("w1", some "cmdA")], [⟨"w1", ⟨none, SCR_REF_TO_TRIGGER_UPDATE⟩⟩],
            [("webViewTypeById_w1", "cmdA")], [], []⟩ "w1").scrollGroupInfoByWebViewId
          id2 = mapGet [⟨"w1", (⟨none, SCR_REF_TO_TRIGGER_UPDATE⟩ : ScrollGroupInfo)⟩] id2 ∧
       mapGet (onDidCloseWebView
          ⟨[("w1", some "cmdA")], [⟨"w1", ⟨none, SCR_REF_TO_TRIGGER_UPDATE⟩⟩],
            [("webViewTypeById_w1", "cmdA")], [], []⟩ "w1").userData
          (USER_DATA_KEY ++ id2) =
         mapGet [("webViewTypeById_w1", "cmdA")] (USER_DATA_KEY ++ id2)) ∧
     (∀ k, k ≠ USER_DATA_KEY ++ "w1" →
       mapGet (onDidCloseWebView
          ⟨[("w1", some "cmdA")], [⟨"w1", ⟨none, SCR_REF_TO_TRIGGER_UPDATE⟩⟩],
            [("webViewTypeById_w1", "cmdA")], [], []⟩ "w1").userData
          k = mapGet [("webViewTypeById_w1", "cmdA")] k)) :=
  ⟨by decide,
    (close_removes_only_own
      ⟨[("w1", some "cmdA")], [⟨"w1", ⟨none, SCR_REF_TO_TRIGGER_UPDATE⟩⟩],
        [("webViewTypeById_w1", "cmdA")], [], []⟩ "w1").1 (by decide)⟩
